import Mathlib

/-!
Shallow embedding of the `DbManager` class (src/database/dbmanager.cpp), the
SQLite-backed persistence layer of the chat application.  The database has
three tables, created by `createUserTable` and `createChatTables`:

* `userinfo(username PRIMARY KEY, password)`
* `chats(chatid PRIMARY KEY, owner)`
* `chatusers(rowid PRIMARY KEY, chatid, username)`

Each table is modelled as a list of rows in insertion order (which is the
storage order SQLite reports for these tables when no ORDER BY is given); the
surrogate `rowid` of `chatusers` carries no information beyond that order and
is left implicit.  SQL statements are modelled on their non-error path, except
in `addChatWithFaults`, where an explicit success oracle models the possible
failure of each INSERT issued by `addChat` (needed because the spec speaks
about the success flag under partial insert failure).  Note that the schema
declares FOREIGN KEY constraints but the code never issues
`PRAGMA foreign_keys = ON`, so SQLite does not enforce them: inserts and
deletes succeed regardless of referential integrity, which is what the
non-error path below reflects.
-/

namespace DbManager

/-- The database state: the three tables.  `userinfo` rows are
(username, password); `chats` rows are (chatid, owner); `chatusers` rows are
(chatid, username). -/
structure DbState where
  userinfo : List (String × String)
  chats : List (Int × String)
  chatusers : List (Int × String)
deriving DecidableEq, Repr

/-- The state right after `createUserTable` and `createChatTables`: all three
tables exist and are empty. -/
def emptyDb : DbState := ⟨[], [], []⟩

/-- `DbManager::userExists`: SELECT username FROM userinfo WHERE username = ?,
true iff the result set is non-empty. -/
def userExists (s : DbState) (inputusername : String) : Bool :=
  s.userinfo.any (fun row => row.1 == inputusername)

/-- `DbManager::addUser`: if the user already exists, log and return false;
otherwise INSERT INTO userinfo and return true. -/
def addUser (s : DbState) (username password : String) : Bool × DbState :=
  if userExists s username then
    (false, s)
  else
    (true, { s with userinfo := s.userinfo ++ [(username, password)] })

/-- `DbManager::checkUserInfo`: false if the user does not exist; otherwise
true iff SELECT * FROM userinfo WHERE username = ? AND password = ? returns a
row.  SQLite compares TEXT with BINARY collation, i.e. exact (case-sensitive)
string equality, which `==` on `String` models. -/
def checkUserInfo (s : DbState) (username password : String) : Bool :=
  if !userExists s username then
    false
  else
    s.userinfo.any (fun row => row.1 == username && row.2 == password)

/-- `DbManager::chatExists`: SELECT * FROM chats WHERE chatid = ?, true iff
the result set is non-empty. -/
def chatExists (s : DbState) (chatID : Int) : Bool :=
  s.chats.any (fun row => row.1 == chatID)

/-- `DbManager::getChatOwner`: returns the null string if the chat does not
exist; otherwise iterates the result of SELECT owner FROM chats WHERE
chatid = ?, keeping the last row's owner (the fold mirrors the `while
(query.next())` loop that overwrites `chatOwner` on every row). -/
def getChatOwner (s : DbState) (chatID : Int) : String :=
  if !chatExists s chatID then
    ""
  else
    (s.chats.filter (fun row => row.1 == chatID)).foldl (fun _ row => row.2) ""

/-- The membership-insert loop of `DbManager::addChat`
(`for (int i=0; i < userVector.size(); i++)`).  `ok i` tells whether the
INSERT for index `i` succeeds; on success the row is appended, and the
`success` flag is set exactly when the successful index is the last one
(`i == userVector.size() - 1`); a failed INSERT is logged and the loop simply
continues. -/
def addChatMemberLoop (chatID : Int) (ok : Nat → Bool) (total : Nat) :
    List String → Nat → DbState → Bool → DbState × Bool
  | [], _, s, success => (s, success)
  | u :: rest, i, s, success =>
    if ok i then
      addChatMemberLoop chatID ok total rest (i + 1)
        { s with chatusers := s.chatusers ++ [(chatID, u)] }
        (if i == total - 1 then true else success)
    else
      addChatMemberLoop chatID ok total rest (i + 1) s success

/-- `DbManager::addChat` with explicit statement-outcome oracles: `okChat` is
the outcome of the INSERT of the chat row, `ok i` the outcome of the INSERT of
membership row `i`.  Fails (no write) if the chat already exists or the owner
user does not exist; then inserts the chat row and runs the membership loop.
Note that the members themselves are never checked for existence. -/
def addChatWithFaults (s : DbState) (chatID : Int) (username : String)
    (userVector : List String) (okChat : Bool) (ok : Nat → Bool) :
    Bool × DbState :=
  if chatExists s chatID then
    (false, s)
  else if !userExists s username then
    (false, s)
  else if !okChat then
    (false, s)
  else
    let s1 := { s with chats := s.chats ++ [(chatID, username)] }
    let r := addChatMemberLoop chatID ok userVector.length userVector 0 s1 false
    (r.2, r.1)

/-- `DbManager::addChat` on the non-error path of the store: every issued
INSERT succeeds. -/
def addChat (s : DbState) (chatID : Int) (username : String)
    (userVector : List String) : Bool × DbState :=
  addChatWithFaults s chatID username userVector true (fun _ => true)

/-- `DbManager::removeChat`: fails if the chat does not exist or the caller is
not the recorded owner; otherwise DELETE FROM chats WHERE chatid = ?, then
DELETE FROM chatusers WHERE chatid = ?, and return true. -/
def removeChat (s : DbState) (chatID : Int) (username : String) :
    Bool × DbState :=
  if chatExists s chatID then
    if getChatOwner s chatID == username then
      let s1 := { s with chats := s.chats.filter (fun row => !(row.1 == chatID)) }
      let s2 := { s1 with chatusers := s1.chatusers.filter (fun row => !(row.1 == chatID)) }
      (true, s2)
    else
      (false, s)
  else
    (false, s)

/-- The nested cursor loop of `DbManager::doUsersChat`.  The outer `while
(query1.next())` walks user 1's chat list; the inner `while (query2.next())`
walks user 2's.  The inner cursor is shared across outer iterations and is
never repositioned, so once the first outer iteration has exhausted it, every
later outer iteration compares against an empty remainder. -/
def usersChatScan : List Int → List Int → Bool
  | [], _ => false
  | c1 :: rest1, rem2 =>
    if rem2.contains c1 then true else usersChatScan rest1 []

/-- `DbManager::doUsersChat`: retrieves each user's chatid list from
`chatusers` and runs the nested cursor loop; returns false up front if either
result set is empty. -/
def doUsersChat (s : DbState) (inputusername1 inputusername2 : String) : Bool :=
  let chats1 := (s.chatusers.filter (fun row => row.2 == inputusername1)).map (fun row => row.1)
  let chats2 := (s.chatusers.filter (fun row => row.2 == inputusername2)).map (fun row => row.1)
  if chats1.length > 0 then
    if chats2.length > 0 then
      usersChatScan chats1 chats2
    else
      false
  else
    false

/-- `DbManager::getChatUsers`: empty if the chat does not exist; otherwise the
usernames of SELECT username FROM chatusers WHERE chatid = ?, in storage
order. -/
def getChatUsers (s : DbState) (chatID : Int) : List String :=
  if !chatExists s chatID then
    []
  else
    (s.chatusers.filter (fun row => row.1 == chatID)).map (fun row => row.2)

/-- `DbManager::getChatsUserIsIn`: empty if the user does not exist; otherwise
the chatids of SELECT chatid FROM chatusers WHERE username = ?, in storage
order. -/
def getChatsUserIsIn (s : DbState) (inputusername : String) : List Int :=
  if !userExists s inputusername then
    []
  else
    (s.chatusers.filter (fun row => row.2 == inputusername)).map (fun row => row.1)

/-- `DbManager::getUserChatInfo`: iterates the user's chats and, inside each,
that chat's members, skipping the user themself; each kept (chat, member)
pair appends `chatID ++ "," ++ member`, preceded by a comma when the `flag`
(here, the Bool component) says something was emitted before. -/
def getUserChatInfo (s : DbState) (inputusername : String) : String :=
  let chatsUserIsIn := getChatsUserIsIn s inputusername
  (chatsUserIsIn.foldl
    (fun acc tempChatID =>
      (getChatUsers s tempChatID).foldl
        (fun acc2 tempUser =>
          if tempUser != inputusername then
            (acc2.1 ++ (if acc2.2 then "," else "") ++
              toString tempChatID ++ "," ++ tempUser, true)
          else
            acc2)
        acc)
    (("", false) : String × Bool)).1

/-- Comma-join of a token list: no leading comma, no trailing comma, empty
string on the empty list.  This is the spec-side reading of "comma-joined
flat sequence" in the summary-format claim. -/
def commaJoin : List String → String
  | [] => ""
  | [x] => x
  | x :: y :: rest => x ++ "," ++ commaJoin (y :: rest)

/-- Spec-side token sequence of `getUserChatInfo` (claim C10): for each chat
of the user, in `getChatsUserIsIn` order, and each co-member in
`getChatUsers` order with the user themself excluded, the two tokens
`toString chatID` and the co-member's name. -/
def userChatTokens (s : DbState) (u : String) : List String :=
  (getChatsUserIsIn s u).flatMap (fun c =>
    ((getChatUsers s c).filter (fun m => m != u)).flatMap
      (fun m => [toString c, m]))

/-- The (chat, co-member) pairs that `getUserChatInfo` emits, in emission
order. -/
def userChatPairs (s : DbState) (u : String) : List (Int × String) :=
  (getChatsUserIsIn s u).flatMap (fun c =>
    ((getChatUsers s c).filter (fun m => m != u)).map (fun m => (c, m)))

/-- One emission step of `getUserChatInfo`, acting on a kept (chat, member)
pair. -/
def emitStep (acc : String × Bool) (p : Int × String) : String × Bool :=
  (acc.1 ++ (if acc.2 then "," else "") ++ toString p.1 ++ "," ++ p.2, true)

/-- The text emitted for a pair list when something was already emitted
before: each pair contributes a leading comma. -/
def joinTail : List (Int × String) → String
  | [] => ""
  | p :: ps => "," ++ toString p.1 ++ "," ++ p.2 ++ joinTail ps

/-- Users Bob, Fred, Harry as created by the demo driver (main.cpp). -/
def demoUsers : DbState :=
  (addUser (addUser (addUser emptyDb "Bob" "password1").2
    "Fred" "password2").2 "Harry" "password3").2

/-- The demo driver's chats: chat 1 owned by Bob with Bob, Fred, Harry, and
chat 2 owned by Harry with Fred, Harry. -/
def demoChats : DbState :=
  (addChat (addChat demoUsers 1 "Bob" ["Bob", "Fred", "Harry"]).2
    2 "Harry" ["Fred", "Harry"]).2

/-- A state where user "a" is in chats 1 and 2 while user "b" is only in
chat 2: reached from the empty store by two `addUser` and two `addChat`
calls. -/
def asymState : DbState :=
  (addChat (addChat (addUser (addUser emptyDb "a" "p").2 "b" "p").2
    1 "a" ["a"]).2 2 "a" ["a", "b"]).2

/-- A state reached from the empty store by `addUser "alice"` followed by
`addChat 1 "alice" ["bob"]`, where "bob" was never created as a user. -/
def fkViolationState : DbState :=
  (addChat (addUser emptyDb "alice" "pw").2 1 "alice" ["bob"]).2

/-- A fold whose step is guarded by a Boolean test is the unguarded fold over
the filtered list. -/
theorem foldl_if_filter {α β : Type} (p : α → Bool) (f : β → α → β)
    (l : List α) (init : β) :
    l.foldl (fun acc a => if p a then f acc a else acc) init
      = (l.filter p).foldl f init := by
  induction l generalizing init with
  | nil => rfl
  | cons a l ih => cases hp : p a <;> simp [List.filter_cons, hp, ih]

/-- A fold of folds over dependent inner lists is a single fold over the
flattened pair list. -/
theorem foldl_inner_pairs {γ : Type} (g : γ → Int × String → γ)
    (h : Int → List String) (l : List Int) (init : γ) :
    l.foldl (fun acc c => (h c).foldl (fun acc2 m => g acc2 (c, m)) acc) init
      = (l.flatMap (fun c => (h c).map (fun m => (c, m)))).foldl g init := by
  induction l generalizing init with
  | nil => rfl
  | cons c l ih => simp [List.foldl_append, List.foldl_map, ih]

/-- Emission from an accumulator that has already emitted: every pair gets a
leading comma. -/
theorem emit_true (ps : List (Int × String)) (t : String) :
    ps.foldl emitStep (t, true) = (t ++ joinTail ps, true) := by
  induction ps generalizing t with
  | nil => simp [joinTail]
  | cons p ps ih => simp [emitStep, joinTail, ih, String.append_assoc]

/-- Emission from the fresh accumulator on a non-empty pair list: the first
pair carries no leading comma, the rest do. -/
theorem emit_false_cons (p : Int × String) (ps : List (Int × String))
    (t : String) :
    (p :: ps).foldl emitStep (t, false)
      = (t ++ toString p.1 ++ "," ++ p.2 ++ joinTail ps, true) := by
  simp [emitStep, emit_true, String.append_assoc]

/-- `commaJoin` of a single token followed by the flat token list of a pair
list: the head token, then each pair with its leading comma. -/
theorem commaJoin_cons_pairs (x : String) (ps : List (Int × String)) :
    commaJoin (x :: ps.flatMap (fun q => [toString q.1, q.2]))
      = x ++ joinTail ps := by
  induction ps generalizing x with
  | nil => simp [commaJoin, joinTail]
  | cons q ps ih =>
    have h2 := ih q.2
    show commaJoin (x :: toString q.1 :: q.2 ::
        ps.flatMap (fun r => [toString r.1, r.2])) = x ++ joinTail (q :: ps)
    simp only [commaJoin]
    rw [h2]
    simp [joinTail, String.append_assoc]

/-- `commaJoin` of the flat alternating token list of a non-empty pair list. -/
theorem commaJoin_tokens_cons (p : Int × String) (ps : List (Int × String)) :
    commaJoin ((p :: ps).flatMap (fun q => [toString q.1, q.2]))
      = toString p.1 ++ "," ++ p.2 ++ joinTail ps := by
  show commaJoin (toString p.1 :: p.2 ::
      ps.flatMap (fun q => [toString q.1, q.2]))
    = toString p.1 ++ "," ++ p.2 ++ joinTail ps
  simp only [commaJoin]
  rw [commaJoin_cons_pairs]
  simp [String.append_assoc]

/-- The membership loop's success flag, started clear, ends up equal to the
outcome of the insert at the final index. -/
theorem memberLoop_success (chatID : Int) (ok : Nat → Bool) (total : Nat) :
    ∀ (rest : List String) (i : Nat) (s : DbState),
      i + rest.length = total → rest ≠ [] →
      (addChatMemberLoop chatID ok total rest i s false).2 = ok (total - 1) := by
  intro rest
  induction rest with
  | nil => intro i s _ hne; exact absurd rfl hne
  | cons u rest ih =>
    intro i s h _
    cases rest with
    | nil =>
      have hi : total - 1 = i := by simp at h; omega
      rw [hi]
      cases hok : ok i <;>
        simp [addChatMemberLoop, hok, hi]
    | cons v rest2 =>
      have hne2 : (i == total - 1) = false := by
        simp only [beq_eq_false_iff_ne]
        simp at h
        omega
      have hlen : i + 1 + (v :: rest2).length = total := by simp at h ⊢; omega
      have step : addChatMemberLoop chatID ok total (u :: v :: rest2) i s false
          = if ok i then
              addChatMemberLoop chatID ok total (v :: rest2) (i + 1)
                { s with chatusers := s.chatusers ++ [(chatID, u)] }
                (if i == total - 1 then true else false)
            else
              addChatMemberLoop chatID ok total (v :: rest2) (i + 1) s false := rfl
      rw [step, hne2]
      cases hok : ok i
      · simp only [Bool.false_eq_true, if_false]
        exact ih (i + 1) s hlen (by simp)
      · simp only [Bool.false_eq_true, if_false, eq_self_iff_true, if_true]
        exact ih (i + 1) { s with chatusers := s.chatusers ++ [(chatID, u)] }
          hlen (by simp)

/-- Claim C1: when the chat is new, the owner exists, the chat-row insert
succeeds and the member list is non-empty, `addChat` returns exactly the
outcome of the membership insert at the final index — regardless of the
outcomes of the earlier membership inserts. -/
theorem addChat_success_is_last_member_insert (s : DbState) (chatID : Int)
    (owner : String) (members : List String) (ok : Nat → Bool)
    (h1 : chatExists s chatID = false) (h2 : userExists s owner = true)
    (h3 : members ≠ []) :
    (addChatWithFaults s chatID owner members true ok).1
      = ok (members.length - 1) := by
  unfold addChatWithFaults
  simp only [h1, h2, Bool.not_true, Bool.not_false, Bool.false_eq_true, if_false]
  exact memberLoop_success chatID ok members.length members 0 _ (by simp) h3

/-- Witness for C1: in the three-user demo state, adding chat 5 where the
insert for member 0 fails and the insert for member 1 (the last) succeeds
still returns true. -/
theorem addChat_success_is_last_member_insert_witness :
    (addChatWithFaults demoUsers 5 "Bob" ["x", "y"] true (fun i => i == 1)).1
      = true := by
  have h := addChat_success_is_last_member_insert demoUsers 5 "Bob" ["x", "y"]
    (fun i => i == 1) (by decide) (by decide) (by simp)
  simpa using h

/-- Claim C2 (refuting evidence): `doUsersChat` is not symmetric.  In
`asymState`, user "a" is in chats 1 and 2 and user "b" only in chat 2, and
the inner query cursor is never repositioned, so `doUsersChat "a" "b"` only
compares "a"'s first chat against "b"'s chats and returns false, while
`doUsersChat "b" "a"` returns true. -/
theorem doUsersChat_not_symmetric :
    doUsersChat asymState "a" "b" = false
    ∧ doUsersChat asymState "b" "a" = true := by
  decide

/-- Claim C3 (refuting evidence): in `asymState`, chatid 2 occurs in the
membership rows of both "a" and "b", yet `doUsersChat "a" "b"` returns
false, because only "a"'s first chat (chat 1) is ever compared against "b"'s
chat list. -/
theorem doUsersChat_misses_shared_chat :
    ((asymState.chatusers.filter (fun row => row.2 == "a")).map
        (fun row => row.1)).contains 2 = true
    ∧ ((asymState.chatusers.filter (fun row => row.2 == "b")).map
        (fun row => row.1)).contains 2 = true
    ∧ doUsersChat asymState "a" "b" = false := by
  decide

/-- Claim C4 (refuting evidence): `fkViolationState` is reached from the
empty store by `addUser "alice"` then `addChat 1 "alice" ["bob"]`, and its
memberships table holds the row (1, "bob") although no user "bob" exists —
`addChat` never checks that the listed members exist, and the declared
FOREIGN KEY constraints are not enforced by SQLite without
`PRAGMA foreign_keys = ON`. -/
theorem membership_reachable_fk_violation :
    (1, "bob") ∈ fkViolationState.chatusers
    ∧ userExists fkViolationState "bob" = false
    ∧ chatExists fkViolationState 1 = true := by
  decide

/-- Claim C5: for an existing chat owned by `A`, `removeChat` by any `B ≠ A`
returns false and leaves the state untouched, while `removeChat` by `A`
returns true, after which the chat no longer exists and its member list is
empty. -/
theorem removeChat_owner_gate (s : DbState) (chatID : Int) (A B : String)
    (hex : chatExists s chatID = true) (hown : getChatOwner s chatID = A)
    (hne : B ≠ A) :
    removeChat s chatID B = (false, s)
    ∧ (removeChat s chatID A).1 = true
    ∧ chatExists (removeChat s chatID A).2 chatID = false
    ∧ getChatUsers (removeChat s chatID A).2 chatID = [] := by
  have hBA : (getChatOwner s chatID == B) = false := by
    rw [hown]
    exact beq_eq_false_iff_ne.mpr (fun hx => hne hx.symm)
  have hAA : (getChatOwner s chatID == A) = true := by rw [hown]; simp
  have hA : removeChat s chatID A =
      (true,
        { s with
          chats := s.chats.filter (fun row => !(row.1 == chatID)),
          chatusers := s.chatusers.filter (fun row => !(row.1 == chatID)) }) := by
    unfold removeChat
    simp [hex, hAA]
  have hCE : chatExists (removeChat s chatID A).2 chatID = false := by
    rw [hA]
    simp [chatExists, List.any_filter, Bool.not_and_self]
  refine ⟨?_, ?_, hCE, ?_⟩
  · unfold removeChat
    simp [hex, hBA]
  · rw [hA]
  · simp [getChatUsers, hCE]

/-- Witness for C5: in the demo state, Harry cannot remove chat 1 (owned by
Bob) and the state is untouched, while Bob's removal succeeds and empties
the chat. -/
theorem removeChat_owner_gate_witness :
    removeChat demoChats 1 "Harry" = (false, demoChats)
    ∧ (removeChat demoChats 1 "Bob").1 = true
    ∧ chatExists (removeChat demoChats 1 "Bob").2 1 = false
    ∧ getChatUsers (removeChat demoChats 1 "Bob").2 1 = [] :=
  removeChat_owner_gate demoChats 1 "Bob" "Harry" (by decide) (by decide)
    (by decide)

/-- Claim C6: an `addChat` call that fails because the chat already exists or
because the owner does not exist returns false and writes nothing: the state
is returned unchanged. -/
theorem addChat_failure_writes_nothing (s : DbState) (chatID : Int)
    (owner : String) (members : List String)
    (h : chatExists s chatID = true ∨ userExists s owner = false) :
    addChat s chatID owner members = (false, s) := by
  unfold addChat addChatWithFaults
  rcases h with h | h
  · simp [h]
  · cases hc : chatExists s chatID
    · simp [hc, h]
    · simp [hc]

/-- Witness for C6: re-adding the already existing chat 1 of the demo state
fails and changes nothing. -/
theorem addChat_failure_writes_nothing_witness :
    addChat demoChats 1 "Bob" ["Fred"] = (false, demoChats) :=
  addChat_failure_writes_nothing demoChats 1 "Bob" ["Fred"]
    (Or.inl (by decide))

/-- Claim C7: with a fresh chatID, an existing owner and an empty member
list, `addChat` inserts the chat row — the chat exists afterwards — yet
returns false, because the success flag is only ever set inside the member
loop. -/
theorem addChat_empty_members_quirk (s : DbState) (chatID : Int)
    (owner : String) (h1 : chatExists s chatID = false)
    (h2 : userExists s owner = true) :
    (addChat s chatID owner []).1 = false
    ∧ chatExists (addChat s chatID owner []).2 chatID = true := by
  have hstep : addChat s chatID owner []
      = (false, { s with chats := s.chats ++ [(chatID, owner)] }) := by
    unfold addChat addChatWithFaults
    simp [h1, h2, addChatMemberLoop]
  rw [hstep]
  exact ⟨rfl, by simp [chatExists]⟩

/-- Witness for C7: adding chat 5 with no members in the demo user state
returns false although chat 5 then exists. -/
theorem addChat_empty_members_quirk_witness :
    (addChat demoUsers 5 "Bob" []).1 = false
    ∧ chatExists (addChat demoUsers 5 "Bob" []).2 5 = true :=
  addChat_empty_members_quirk demoUsers 5 "Bob" (by decide) (by decide)

/-- Claim C8: `checkUserInfo` returns false when the user does not exist, and
otherwise returns true exactly when the userinfo table holds a row equal to
the given (username, password) pair — exact, case-sensitive string equality,
no hashing. -/
theorem checkUserInfo_exact_match (s : DbState) (u p : String) :
    (userExists s u = false → checkUserInfo s u p = false)
    ∧ (checkUserInfo s u p = true ↔ (u, p) ∈ s.userinfo) := by
  have hmem : (u, p) ∈ s.userinfo → userExists s u = true := by
    intro hm
    unfold userExists
    rw [List.any_eq_true]
    exact ⟨(u, p), hm, by simp⟩
  constructor
  · intro h
    simp [checkUserInfo, h]
  · unfold checkUserInfo
    cases hE : userExists s u
    · simp only [Bool.not_false, if_true]
      constructor
      · intro hx
        exact absurd hx (by simp)
      · intro hm
        rw [hmem hm] at hE
        exact absurd hE (by simp)
    · simp only [Bool.not_true, Bool.false_eq_true, if_false]
      rw [List.any_eq_true]
      constructor
      · rintro ⟨⟨a, b⟩, hm, hab⟩
        simp only [Bool.and_eq_true, beq_iff_eq] at hab
        obtain ⟨ha, hb⟩ := hab
        subst ha
        subst hb
        exact hm
      · intro hm
        exact ⟨(u, p), hm, by simp⟩

/-- Witness for C8: Bob's stored password from the demo state is accepted. -/
theorem checkUserInfo_exact_match_witness :
    checkUserInfo demoUsers "Bob" "password1" = true :=
  (checkUserInfo_exact_match demoUsers "Bob" "password1").2.mpr (by decide)

/-- Claim C9: after a successful `addUser u p`, a second `addUser u p2`
returns false and leaves the state — in particular the stored row —
unchanged, and `u` exists after the first call and still after the second. -/
theorem addUser_duplicate_rejected (s : DbState) (u p p2 : String)
    (h : (addUser s u p).1 = true) :
    (addUser (addUser s u p).2 u p2).1 = false
    ∧ (addUser (addUser s u p).2 u p2).2 = (addUser s u p).2
    ∧ userExists (addUser s u p).2 u = true := by
  cases hE : userExists s u
  case true =>
    simp [addUser, hE] at h
  case false =>
    have hs1 : (addUser s u p).2 = { s with userinfo := s.userinfo ++ [(u, p)] } := by
      simp [addUser, hE]
    have hu : userExists { s with userinfo := s.userinfo ++ [(u, p)] } u = true := by
      simp [userExists]
    refine ⟨?_, ?_, ?_⟩
    · rw [hs1]
      simp [addUser, hu]
    · rw [hs1]
      simp [addUser, hu]
    · rw [hs1]
      exact hu

/-- Witness for C9: creating Bob and then re-creating Bob with another
password fails, keeps the state, and Bob still exists. -/
theorem addUser_duplicate_rejected_witness :
    (addUser (addUser emptyDb "Bob" "p1").2 "Bob" "p2").1 = false
    ∧ (addUser (addUser emptyDb "Bob" "p1").2 "Bob" "p2").2
        = (addUser emptyDb "Bob" "p1").2
    ∧ userExists (addUser emptyDb "Bob" "p1").2 "Bob" = true :=
  addUser_duplicate_rejected emptyDb "Bob" "p1" "p2" (by decide)

/-- Claim C10: `getUserChatInfo` is the comma-join — no leading comma, no
trailing comma, empty on no tokens — of the flat alternating chatID /
co-member token sequence taken in `getChatsUserIsIn` order and, within each
chat, `getChatUsers` order with the user themself excluded; in particular it
is the empty string when the user belongs to no chats. -/
theorem getUserChatInfo_is_comma_joined_tokens (s : DbState) (u : String) :
    getUserChatInfo s u = commaJoin (userChatTokens s u)
    ∧ (getChatsUserIsIn s u = [] → getUserChatInfo s u = "") := by
  have key : getUserChatInfo s u
      = ((userChatPairs s u).foldl emitStep ("", false)).1 := by
    unfold getUserChatInfo userChatPairs
    have hin : ∀ (c : Int) (acc : String × Bool),
        (getChatUsers s c).foldl
          (fun acc2 m =>
            if m != u then
              (acc2.1 ++ (if acc2.2 then "," else "") ++
                toString c ++ "," ++ m, true)
            else acc2)
          acc
        = ((getChatUsers s c).filter (fun m => m != u)).foldl
            (fun acc2 m => emitStep acc2 (c, m)) acc := by
      intro c acc
      exact foldl_if_filter (fun m => m != u)
        (fun acc2 m => emitStep acc2 (c, m)) _ acc
    simp only [hin]
    exact congrArg Prod.fst
      (foldl_inner_pairs emitStep
        (fun c => (getChatUsers s c).filter (fun m => m != u))
        (getChatsUserIsIn s u) ("", false))
  have tok : userChatTokens s u
      = (userChatPairs s u).flatMap (fun p => [toString p.1, p.2]) := by
    unfold userChatTokens userChatPairs
    simp [List.flatMap_assoc, List.flatMap_map, Function.comp]
  refine ⟨?_, ?_⟩
  · rw [key, tok]
    cases hp : userChatPairs s u with
    | nil => simp [commaJoin]
    | cons p ps =>
      rw [emit_false_cons, commaJoin_tokens_cons]
      simp [String.append_assoc]
  · intro h0
    simp [getUserChatInfo, h0]

/-- Witness for C10: a user of no chats gets the empty summary string. -/
theorem getUserChatInfo_is_comma_joined_tokens_witness :
    getChatsUserIsIn emptyDb "zed" = [] ∧ getUserChatInfo emptyDb "zed" = "" :=
  ⟨by decide,
    (getUserChatInfo_is_comma_joined_tokens emptyDb "zed").2 (by decide)⟩

end DbManager
